import Mathlib

/-!
Shallow embedding of the Mongo-Postgres-Benchmark backend providers
(`src/postgres/db_ops.go` and `src/mongo/db_opts.go`) and proofs about the
provider operations.

The database visible to a provider is modelled as a `List Person` (one entry
per persisted row/document).  The outcome of each fallible external step
(network call, JSON (un)marshal, BSON decode) is supplied by an explicit
environment record, so every operation is a pure function of the database,
its arguments and that environment.
-/

namespace MPB

/-- Modelled from the spec: `record.Person` (package `record` is not under
`src/`).  A flat entity with a uint64 identifier, demographic/numeric fields
and a padding field.  The balance is stored as the raw value drawn from the
randomness source (its float32 encoding is irrelevant to the claims). -/
structure Person where
  id      : Nat
  age     : Nat
  balance : Nat
  name    : Nat
  pad     : Nat
  deriving Repr, DecidableEq

/-- Modelled from the spec: a seeded randomness source (`*rand.Rand`),
deterministically reproducible; each draw consumes the head of a stream. -/
structure Rnd where
  stream : List Nat
  deriving Repr, DecidableEq

/-- One draw from the randomness source. -/
def Rnd.next (r : Rnd) : Nat × Rnd :=
  (r.stream.headD 0, ⟨r.stream.tail⟩)

/-- Modelled from the spec: the identifier generator state of package
`idgen` (not under `src/`): a high-water mark, a count of `GetNew` calls,
and its own sampling randomness for `GetExisting`. -/
structure Gen where
  hwm          : Nat
  issuedCount  : Nat
  sampleStream : List Nat
  deriving Repr, DecidableEq

/-- Modelled from the spec: `GetNew` atomically increments the high-water
mark and returns it; strictly increasing, never repeating. -/
def Gen.getNew (g : Gen) : Nat × Gen :=
  (g.hwm + 1, { g with hwm := g.hwm + 1, issuedCount := g.issuedCount + 1 })

/-- Modelled from the spec: `GetExisting` samples uniformly from
`[1, hwm]` (0 when the population is empty). -/
def Gen.getExisting (g : Gen) : Nat × Gen :=
  let raw := g.sampleStream.headD 0
  (if g.hwm = 0 then 0 else raw % g.hwm + 1,
   { g with sampleStream := g.sampleStream.tail })

/-- Modelled from the spec: `Randomise(rnd)` redraws every field except the
identifier from the randomness source. -/
def Person.randomise (p : Person) (rnd : Rnd) : Person × Rnd :=
  let (a, r1) := rnd.next
  let (b, r2) := r1.next
  let (n, r3) := r2.next
  let (pd, r4) := r3.next
  ({ p with age := a % 101, balance := b, name := n, pad := pd }, r4)

/-- Outcome of one provider operation: a returned boolean, or a Go panic
propagated out of the call. -/
inductive OpOutcome where
  | ok (b : Bool)
  | panicked
  deriving Repr, DecidableEq

/-- The five canonical provider operations. -/
inductive OpKind where
  | insert
  | update
  | read
  | readRange
  | readMostRecent
  deriving Repr, DecidableEq

/-- Maximum identifier present in a database (0 when empty); the value
produced by the `ORDER BY id DESC LIMIT 1` / sort-descending queries. -/
def listMaxId (db : List Person) : Nat :=
  db.foldr (fun r m => max r.id m) 0

/-! ### Postgres provider (`src/postgres/db_ops.go`) -/

namespace Pg

/-- Fallible external steps of one Postgres `InsertRecord` call:
`json.Marshal` and `DB.Exec`. -/
structure InsertEnv where
  marshalErr : Bool
  execErr    : Bool
  deriving Repr, DecidableEq

/-- `FuncProvider.InsertRecord` (postgres/db_ops.go:26-42): randomise the
template, set `data.ID = id.GetNew()`, `json.Marshal` — panicking on a
marshal error — then `INSERT` one row.  On an exec error, log and return
false. -/
def insertRecord (db : List Person) (data : Person) (id : Gen) (rnd : Rnd)
    (env : InsertEnv) : OpOutcome × List Person × Gen × Rnd :=
  let (d1, rnd1) := data.randomise rnd
  let (newId, id1) := id.getNew
  let d2 := { d1 with id := newId }
  if env.marshalErr then (.panicked, db, id1, rnd1)
  else if env.execErr then (.ok false, db, id1, rnd1)
  else (.ok true, db ++ [d2], id1, rnd1)

/-- Fallible external step of one Postgres `UpdateRecord` call. -/
structure UpdateEnv where
  execErr : Bool
  deriving Repr, DecidableEq

/-- `FuncProvider.UpdateRecord` (postgres/db_ops.go:46-59): sample an
existing identifier, then run an UPDATE that applies jsonb_set on the
balance key of every row whose id matches, with a fresh float drawn from
`rnd`.  The statement touches
the balance of every row whose id matches; zero matched rows is not an
error, so the call returns true whenever `Exec` itself succeeds. -/
def updateRecord (db : List Person) (id : Gen) (rnd : Rnd)
    (env : UpdateEnv) : OpOutcome × List Person × Gen × Rnd :=
  let (recordID, id1) := id.getExisting
  let (v, rnd1) := rnd.next
  if env.execErr then (.ok false, db, id1, rnd1)
  else (.ok true,
        db.map (fun r => if r.id = recordID then { r with balance := v } else r),
        id1, rnd1)

/-- Fallible external steps of one Postgres `ReadRecord` call. -/
structure ReadEnv where
  queryErr     : Bool
  unmarshalErr : Bool
  deriving Repr, DecidableEq

/-- `FuncProvider.ReadRecord` (postgres/db_ops.go:63-80): sample an existing
identifier, `SELECT` the matching row (`Scan` fails with `ErrNoRows` when
none matches), then `json.Unmarshal` it. -/
def readRecord (db : List Person) (id : Gen) (env : ReadEnv) :
    OpOutcome × Gen :=
  let (recordID, id1) := id.getExisting
  if env.queryErr then (.ok false, id1)
  else
    match db.find? (fun r => r.id = recordID) with
    | none => (.ok false, id1)
    | some _ => if env.unmarshalErr then (.ok false, id1) else (.ok true, id1)

/-- The rows selected by the range query
(WHERE the age key is above 45 AND below 75, under jsonb numeric
comparison) and by the Mongo
filter `age $gt 45 $lt 75`): age strictly between 45 and 75. -/
def rangeRows (db : List Person) : List Person :=
  db.filter (fun r => 45 < r.age && r.age < 75)

/-- Iterating a result set: row `i` fails (scan or decode) when entry `i` of
`rowErrs` is true; the loop returns false at the first failing row and true
after the last row. -/
def processRows : List Person → List Bool → Bool
  | [], _ => true
  | _ :: rs, errs =>
    if errs.headD false then false else processRows rs errs.tail

/-- Fallible external steps of one Postgres `ReadRange` call: the query
itself, then one scan-or-unmarshal flag per returned row. -/
structure RangeEnv where
  queryErr : Bool
  rowErrs  : List Bool
  deriving Repr, DecidableEq

/-- `FuncProvider.ReadRange` (postgres/db_ops.go:83-106): range query on
age, iterate all rows, `Scan` + `json.Unmarshal` each, false on the first
error, true otherwise (also on an empty result set). -/
def readRange (db : List Person) (env : RangeEnv) : OpOutcome :=
  if env.queryErr then .ok false
  else .ok (processRows (rangeRows db) env.rowErrs)

/-- `FuncProvider.ReadMostRecentRecord` (postgres/db_ops.go:110-125):
SELECT ordered by the id key descending, LIMIT 1, then unmarshal; an empty
table surfaces as `ErrNoRows`. -/
def readMostRecentRecord (db : List Person) (env : ReadEnv) : OpOutcome :=
  if env.queryErr then .ok false
  else if db.isEmpty then .ok false
  else if env.unmarshalErr then .ok false
  else .ok true

/-- Fallible external step of one Postgres `GetMaxID` call. -/
structure MaxEnv where
  queryErr : Bool
  deriving Repr, DecidableEq

/-- `FuncProvider.GetMaxID` (postgres/db_ops.go:128-136): scan the largest
id; `if err != nil || count == 0` return the "no existing data?" error.  An
empty table yields `ErrNoRows`, and a stored maximum of 0 is also rejected. -/
def getMaxID (db : List Person) (env : MaxEnv) : Except String Nat :=
  if env.queryErr || db.isEmpty then .error "no existing data?"
  else if listMaxId db = 0 then .error "no existing data?"
  else .ok (listMaxId db)

/-- Fallible external steps of `NewProvider`. -/
structure ConnEnv where
  parseErr   : Bool
  connectErr : Bool
  pingErr    : Bool
  deriving Repr, DecidableEq

/-- A constructed Postgres provider: the pooled connection handle
(`connected` records that `ConnectConfig` and `Ping` succeeded) and the
target table name. -/
structure Provider where
  connected : Bool
  tableName : String
  deriving Repr, DecidableEq

/-- `NewProvider` (postgres/db_ops.go:139-167): parse the endpoint, open the
pool, ping it; any failure returns `(nil, err)`, success returns the fully
initialised provider. -/
def newProvider (tableName : String) (env : ConnEnv) :
    Except String Provider :=
  if env.parseErr then .error "parse config"
  else if env.connectErr then .error "connect"
  else if env.pingErr then .error "ping"
  else .ok { connected := true, tableName := tableName }

/-- Per-call timeout, in seconds, of each Postgres operation: every call
uses `context.Background()` — no `context.WithTimeout` anywhere in
postgres/db_ops.go. -/
def opTimeoutSec : OpKind → Option Nat := fun _ => none

end Pg

/-! ### Mongo provider (`src/mongo/db_opts.go`) -/

namespace Mg

/-- Fallible external step of one Mongo `InsertRecord` call (`InsertOne`;
a BSON marshal error also surfaces through its returned error). -/
structure InsertEnv where
  insertErr : Bool
  deriving Repr, DecidableEq

/-- `FuncProvider.InsertRecord` (mongo/db_opts.go:31-45): randomise the
template, set `data.ID = id.GetNew()`, `InsertOne` the document; any error
is logged and the call returns false. -/
def insertRecord (db : List Person) (data : Person) (id : Gen) (rnd : Rnd)
    (env : InsertEnv) : OpOutcome × List Person × Gen × Rnd :=
  let (d1, rnd1) := data.randomise rnd
  let (newId, id1) := id.getNew
  let d2 := { d1 with id := newId }
  if env.insertErr then (.ok false, db, id1, rnd1)
  else (.ok true, db ++ [d2], id1, rnd1)

/-- Updating the first document matching an id, as `UpdateOne` does: at
most one document is modified even if several share the id. -/
def updateFirst (db : List Person) (recordID v : Nat) : List Person :=
  match db with
  | [] => []
  | r :: rest =>
    if r.id = recordID then { r with balance := v } :: rest
    else r :: updateFirst rest recordID v

/-- Fallible external step of one Mongo `UpdateRecord` call. -/
structure UpdateEnv where
  updateErr : Bool
  deriving Repr, DecidableEq

/-- `FuncProvider.UpdateRecord` (mongo/db_opts.go:48-65): sample an
existing identifier, then `UpdateOne` filtering on that identifier with a
set-update of the balance field to `rnd.Float32()`.
A zero-match update is not an error, so the call returns true whenever
`UpdateOne` itself succeeds. -/
def updateRecord (db : List Person) (id : Gen) (rnd : Rnd)
    (env : UpdateEnv) : OpOutcome × List Person × Gen × Rnd :=
  let (recordID, id1) := id.getExisting
  let (v, rnd1) := rnd.next
  if env.updateErr then (.ok false, db, id1, rnd1)
  else (.ok true, updateFirst db recordID v, id1, rnd1)

/-- Fallible external step of one Mongo `ReadRecord` call (`FindOne` +
`Decode`; a missing document surfaces as `ErrNoDocuments`). -/
structure ReadEnv where
  findErr : Bool
  deriving Repr, DecidableEq

/-- `FuncProvider.ReadRecord` (mongo/db_opts.go:68-83): sample an existing
identifier, then `FindOne` on that identifier and `Decode`; false on any
error, including
no matching document. -/
def readRecord (db : List Person) (id : Gen) (env : ReadEnv) :
    OpOutcome × Gen :=
  let (recordID, id1) := id.getExisting
  if env.findErr then (.ok false, id1)
  else
    match db.find? (fun r => r.id = recordID) with
    | none => (.ok false, id1)
    | some _ => (.ok true, id1)

/-- Fallible external steps of one Mongo `ReadRange` call: the `Find`, one
`Decode` flag per returned document, and the final `cursor.Err()` check. -/
structure RangeEnv where
  findErr   : Bool
  rowErrs   : List Bool
  cursorErr : Bool
  deriving Repr, DecidableEq

/-- `FuncProvider.ReadRange` (mongo/db_opts.go:86-120): `Find` with filter
`age $gt 45 $lt 75`, decode every document of the cursor, then check
`cursor.Err()`; false on any of these errors, true otherwise (also on an
empty result set). -/
def readRange (db : List Person) (env : RangeEnv) : OpOutcome :=
  if env.findErr then .ok false
  else if !Pg.processRows (Pg.rangeRows db) env.rowErrs then .ok false
  else if env.cursorErr then .ok false
  else .ok true

/-- `FuncProvider.ReadMostRecentRecord` (mongo/db_opts.go:123-138):
`FindOne` sorted by `_id` descending, decode; an empty collection surfaces
as `ErrNoDocuments`. -/
def readMostRecentRecord (db : List Person) (env : ReadEnv) : OpOutcome :=
  if env.findErr then .ok false
  else if db.isEmpty then .ok false
  else .ok true

/-- `FuncProvider.GetMaxID` (mongo/db_opts.go:141-157): `FindOne` sorted by
`_id` descending, decode into a uint64; any error (including the empty
collection) becomes the "no existing data?" error, otherwise the decoded
maximum id is returned as-is — 0 included. -/
def getMaxID (db : List Person) (env : ReadEnv) : Except String Nat :=
  if env.findErr || db.isEmpty then .error "no existing data?"
  else .ok (listMaxId db)

/-- A parsed URL query string: an ordered list of key/value pairs.
`get` returns the first value for a key ("" when absent), `del` removes
every pair with the key — the behaviour of the Go type `url.Values`. -/
structure Query where
  pairs : List (String × String)
  deriving Repr, DecidableEq

/-- `url.Values.Get`: first value for the key, "" when absent. -/
def Query.get (q : Query) (k : String) : String :=
  ((q.pairs.find? (fun kv => kv.1 = k)).map (fun kv => kv.2)).getD ""

/-- `url.Values.Del`: drop every pair with the key. -/
def Query.del (q : Query) (k : String) : Query :=
  ⟨q.pairs.filter (fun kv => kv.1 ≠ k)⟩

/-- Whether the query carries a pair with the key. -/
def Query.has (q : Query) (k : String) : Bool :=
  q.pairs.any (fun kv => kv.1 = k)

/-- `strings.TrimPrefix(path, "/")`: drop one leading slash if present. -/
def trimSlash (path : String) : String :=
  match path.data with
  | '/' :: rest => ⟨rest⟩
  | _ => path

/-- `strings.ToLower` on the ASCII option values: lowercase every
character. -/
def toLowerStr (s : String) : String :=
  ⟨s.data.map Char.toLower⟩

/-- `strconv.Atoi`: an optional sign followed by at least one ASCII digit,
whose value must fit a 64-bit int — out-of-range numerals fail with
ErrRange. -/
def atoi (s : String) : Option Int :=
  let (neg, digits) :=
    match s.data with
    | '-' :: t => (true, t)
    | '+' :: t => (false, t)
    | cs => (false, cs)
  if digits.isEmpty || !digits.all Char.isDigit then none
  else
    let n : Nat := digits.foldl (fun acc c => acc * 10 + c.toNat - 48) 0
    let v : Int := if neg then -(n : Int) else (n : Int)
    if v < -(2 ^ 63) || 2 ^ 63 - 1 < v then none else some v

/-- Mongo read concern selected by `NewProvider`. -/
inductive RC where
  | majority
  | local
  | linearizable
  deriving Repr, DecidableEq

/-- Mongo write concern selected by `NewProvider`: `WMajority` or `W(n)`,
optionally with journal acknowledgement. -/
structure WC where
  wmajority : Bool
  w         : Int
  journal   : Bool
  deriving Repr, DecidableEq

/-- A constructed Mongo provider: the connected client and the resolved
database/collection, together with the options `NewProvider` computed. -/
structure Provider where
  connected  : Bool
  dbName     : String
  collection : String
  rc         : RC
  wc         : WC
  cleanQuery : Query
  deriving Repr, DecidableEq

/-- Fallible external steps of the Mongo `NewProvider`. -/
structure ConnEnv where
  connectErr : Bool
  pingErr    : Bool
  deriving Repr, DecidableEq

/-- The readConcern switch of `NewProvider` (mongo/db_opts.go:167-178):
empty and majority select the majority read concern, local and
linearizable theirs, anything else is rejected. -/
def rcParse (s : String) : Except String RC :=
  match s with
  | "" => .ok .majority
  | "majority" => .ok .majority
  | "local" => .ok .local
  | "linearizable" => .ok .linearizable
  | _ => .error "unknown readConcern value"

/-- The writeConcern switch of `NewProvider` (mongo/db_opts.go:181-192):
empty and majority select WMajority, anything else must parse with
`strconv.Atoi` and selects W(n). -/
def wcParse (s : String) : Except String WC :=
  match s with
  | "" => .ok ⟨true, 0, false⟩
  | "majority" => .ok ⟨true, 0, false⟩
  | _ =>
    match atoi s with
    | none => .error "invalid writeConcern value"
    | some n => .ok ⟨false, n, false⟩

/-- The journal switch of `NewProvider` (mongo/db_opts.go:195-203): empty,
false and 0 keep the write concern, true and 1 add J(true), anything else
is rejected. -/
def jParse (wc : WC) (s : String) : Except String WC :=
  match s with
  | "" => .ok wc
  | "false" => .ok wc
  | "0" => .ok wc
  | "true" => .ok { wc with journal := true }
  | "1" => .ok { wc with journal := true }
  | _ => .error "unknown journal value"

/-- The fsync switch of `NewProvider` (mongo/db_opts.go:206-214): empty,
false and 0 are no-ops, true and 1 only log a note, anything else is
rejected. -/
def fsParse (s : String) : Except String Unit :=
  match s with
  | "" => .ok ()
  | "false" => .ok ()
  | "0" => .ok ()
  | "true" => .ok ()
  | "1" => .ok ()
  | _ => .error "unknown fsync value"

/-- `NewProvider` (mongo/db_opts.go:159-240): take the database name from
the URL path (error when empty); validate and strip the `readConcern`,
`writeConcern`, `journal` and `fsync` query parameters (defaults: majority
read concern, majority write concern, no journal; fsync=true is only
logged); then connect and ping, returning the fully initialised provider
or the first error. -/
def newProvider (path : String) (query : Query) (tableName : String)
    (env : ConnEnv) : Except String Provider :=
  let dbName := trimSlash path
  if dbName = "" then .error "database name cannot be empty"
  else
    match rcParse (toLowerStr (query.get "readConcern")) with
    | .error e => .error e
    | .ok rc =>
      let q1 := query.del "readConcern"
      match wcParse (toLowerStr (q1.get "writeConcern")) with
      | .error e => .error e
      | .ok wc0 =>
        let q2 := q1.del "writeConcern"
        match jParse wc0 (toLowerStr (q2.get "journal")) with
        | .error e => .error e
        | .ok wc =>
          let q3 := q2.del "journal"
          match fsParse (toLowerStr (q3.get "fsync")) with
          | .error e => .error e
          | .ok _ =>
            let q4 := q3.del "fsync"
            if env.connectErr then .error "connect"
            else if env.pingErr then .error "ping"
            else .ok { connected := true, dbName := dbName,
                       collection := tableName, rc := rc, wc := wc,
                       cleanQuery := q4 }

/-- Per-call timeout, in seconds, of each Mongo operation: every call wraps
its context in `context.WithTimeout(context.Background(), 10*time.Second)`. -/
def opTimeoutSec : OpKind → Option Nat := fun _ => some 10

end Mg

namespace Mg

/-- The readConcern values (after lowercasing) the factory accepts. -/
def validRCStr (s : String) : Bool :=
  s = "" || s = "majority" || s = "local" || s = "linearizable"

/-- The writeConcern values (after lowercasing) the factory accepts:
empty, majority, or an integer. -/
def validWCStr (s : String) : Bool :=
  s = "" || s = "majority" || (atoi s).isSome

/-- The journal and fsync values (after lowercasing) the factory accepts. -/
def validJFStr (s : String) : Bool :=
  s = "" || s = "false" || s = "0" || s = "true" || s = "1"

/-- Read concern denoted by an accepted readConcern value. -/
def rcVal (s : String) : RC :=
  if s = "local" then .local
  else if s = "linearizable" then .linearizable
  else .majority

/-- Write concern denoted by accepted writeConcern and journal values. -/
def wcVal (w j : String) : WC :=
  let base : WC :=
    if w = "" || w = "majority" then ⟨true, 0, false⟩
    else ⟨false, (atoi w).getD 0, false⟩
  if j = "true" || j = "1" then { base with journal := true } else base

/-- The query after stripping the four recognized parameters. -/
def stripParams (q : Query) : Query :=
  (((q.del "readConcern").del "writeConcern").del "journal").del "fsync"

end Mg

/-- Whether a provider operation panicked. -/
def OpOutcome.isPanic : OpOutcome → Bool
  | .panicked => true
  | .ok _ => false

/-! ### Concrete values used for evaluations -/

/-- A blank record template. -/
def p0 : Person := ⟨0, 0, 0, 0, 0⟩

/-- A persisted record whose identifier is 0. -/
def pZero : Person := ⟨0, 50, 7, 3, 4⟩

/-- A generator whose high-water mark is 5 and whose next existing sample
is 1. -/
def g5 : Gen := ⟨5, 0, []⟩

/-- A randomness source drawing only zeros. -/
def r0 : Rnd := ⟨[]⟩

/-! ### Helper lemmas -/

/-- Mapping a function that fixes every element of a list is the identity. -/
theorem map_eq_self_of_fix {f : Person → Person} :
    ∀ {l : List Person}, (∀ r ∈ l, f r = r) → l.map f = l
  | [], _ => rfl
  | r :: rest, h => by
    simp only [List.map_cons]
    rw [h r (List.mem_cons_self r rest),
        map_eq_self_of_fix (fun x hx => h x (List.mem_cons_of_mem r hx))]

/-- `updateFirst` with an identifier matching no element is the identity. -/
theorem updateFirst_no_match :
    ∀ {l : List Person} {t v : Nat}, (∀ r ∈ l, r.id ≠ t) →
      Mg.updateFirst l t v = l
  | [], _, _, _ => rfl
  | r :: rest, t, v, h => by
    simp only [Mg.updateFirst]
    rw [if_neg (h r (List.mem_cons_self r rest)), updateFirst_no_match
      (fun x hx => h x (List.mem_cons_of_mem r hx))]

/-! ### Claim C1 -/

/-- Claim C1, counterexample: the Postgres `InsertRecord` panics when
`json.Marshal` fails, instead of logging the error and returning false as
the claim states for every serialization error path. -/
theorem c1_counterexample :
    (Pg.insertRecord [] p0 g5 r0 ⟨true, false⟩).1 = OpOutcome.panicked := by
  decide

/-- Claim C1 as amended: every provider operation on either backend
returns a boolean success flag and never panics, with every error path —
driver/query errors, no matching row/document on a read, per-row
scan/decode failures and the final cursor error of a range read, the
unmarshal failures of the Postgres reads, and an empty table/collection on
a most-recent read — converted to a false return value; the one exception
is the Postgres `InsertRecord`, which panics exactly when `json.Marshal`
of the record fails (its exec-error path still returns false).  Each
conjunct fully determines the operation outcome as a function of the
environment, so every error path is covered. -/
theorem c1_amended_no_panic_except_pg_marshal :
    (∀ db data g rnd e, (Mg.insertRecord db data g rnd ⟨e⟩).1 = OpOutcome.ok (!e))
  ∧ (∀ db g rnd e, (Mg.updateRecord db g rnd ⟨e⟩).1 = OpOutcome.ok (!e))
  ∧ (∀ db g env, (Mg.readRecord db g env).1 =
      OpOutcome.ok (!env.findErr &&
        (db.find? (fun r => r.id = (g.getExisting).1)).isSome))
  ∧ (∀ db env, Mg.readRange db env =
      OpOutcome.ok (!env.findErr &&
        Pg.processRows (Pg.rangeRows db) env.rowErrs && !env.cursorErr))
  ∧ (∀ db env, Mg.readMostRecentRecord db env =
      OpOutcome.ok (!env.findErr && !db.isEmpty))
  ∧ (∀ db g rnd e, (Pg.updateRecord db g rnd ⟨e⟩).1 = OpOutcome.ok (!e))
  ∧ (∀ db g env, (Pg.readRecord db g env).1 =
      OpOutcome.ok (!env.queryErr &&
        (db.find? (fun r => r.id = (g.getExisting).1)).isSome &&
        !env.unmarshalErr))
  ∧ (∀ db env, Pg.readRange db env =
      OpOutcome.ok (!env.queryErr &&
        Pg.processRows (Pg.rangeRows db) env.rowErrs))
  ∧ (∀ db env, Pg.readMostRecentRecord db env =
      OpOutcome.ok (!env.queryErr && !db.isEmpty && !env.unmarshalErr))
  ∧ (∀ db data g rnd e,
      (Pg.insertRecord db data g rnd ⟨false, e⟩).1 = OpOutcome.ok (!e))
  ∧ (∀ db data g rnd e,
      (Pg.insertRecord db data g rnd ⟨true, e⟩).1 = OpOutcome.panicked) := by
  refine ⟨?_, ?_, ?_, ?_, ?_, ?_, ?_, ?_, ?_, ?_, ?_⟩
  · intro db data g rnd e; cases e <;> simp [Mg.insertRecord]
  · intro db g rnd e; cases e <;> simp [Mg.updateRecord]
  · intro db g env
    obtain ⟨fe⟩ := env
    cases fe <;>
      cases h : db.find? (fun r => r.id = (g.getExisting).1) <;>
        simp [Mg.readRecord, h]
  · intro db env
    obtain ⟨fe, errs, ce⟩ := env
    cases fe <;> cases ce <;>
      cases hp : Pg.processRows (Pg.rangeRows db) errs <;>
        simp [Mg.readRange, hp]
  · intro db env
    obtain ⟨fe⟩ := env
    cases fe <;> cases hdb : db.isEmpty <;>
      simp [Mg.readMostRecentRecord, hdb]
  · intro db g rnd e; cases e <;> simp [Pg.updateRecord]
  · intro db g env
    obtain ⟨qe, ue⟩ := env
    cases qe <;> cases ue <;>
      cases h : db.find? (fun r => r.id = (g.getExisting).1) <;>
        simp [Pg.readRecord, h]
  · intro db env
    obtain ⟨qe, errs⟩ := env
    cases qe <;> simp [Pg.readRange]
  · intro db env
    obtain ⟨qe, ue⟩ := env
    cases qe <;> cases ue <;> cases hdb : db.isEmpty <;>
      simp [Pg.readMostRecentRecord, hdb]
  · intro db data g rnd e; cases e <;> simp [Pg.insertRecord]
  · intro db data g rnd e; simp [Pg.insertRecord]

/-! ### Claim C2 -/

/-- Claim C2, counterexample: on an empty backend no entity can match the
sampled identifier, yet `UpdateRecord` returns true on both backends (the
claim states it returns false when nothing matches). -/
theorem c2_counterexample :
    (Pg.updateRecord [] g5 r0 ⟨false⟩).1 = OpOutcome.ok true
  ∧ (Mg.updateRecord [] g5 r0 ⟨false⟩).1 = OpOutcome.ok true := by
  decide

/-- Claim C2 as amended: when no persisted entity matches the identifier
sampled via `GetExisting` and the statement itself executes without a
backend error, `UpdateRecord` does not crash — it returns true and leaves
the database unchanged on both backends; the zero-match case is not
detected (false is returned only on a query/backend error). -/
theorem c2_amended_no_match_returns_true (db : List Person) (g : Gen)
    (rnd : Rnd) (h : ∀ r ∈ db, r.id ≠ (g.getExisting).1) :
    (Pg.updateRecord db g rnd ⟨false⟩).1 = OpOutcome.ok true
  ∧ (Pg.updateRecord db g rnd ⟨false⟩).2.1 = db
  ∧ (Mg.updateRecord db g rnd ⟨false⟩).1 = OpOutcome.ok true
  ∧ (Mg.updateRecord db g rnd ⟨false⟩).2.1 = db := by
  refine ⟨by simp [Pg.updateRecord], ?_, by simp [Mg.updateRecord], ?_⟩
  · simp only [Pg.updateRecord]
    exact map_eq_self_of_fix (fun r hr => by simp [h r hr])
  · simp only [Mg.updateRecord]
    exact updateFirst_no_match h

/-- Claim C2 witness: a concrete no-match update on a one-record database
returns true and changes nothing. -/
theorem c2_witness :
    (Pg.updateRecord [⟨2, 1, 1, 1, 1⟩] g5 r0 ⟨false⟩).1 = OpOutcome.ok true
  ∧ (Pg.updateRecord [⟨2, 1, 1, 1, 1⟩] g5 r0 ⟨false⟩).2.1 = [⟨2, 1, 1, 1, 1⟩]
  ∧ (Mg.updateRecord [⟨2, 1, 1, 1, 1⟩] g5 r0 ⟨false⟩).1 = OpOutcome.ok true
  ∧ (Mg.updateRecord [⟨2, 1, 1, 1, 1⟩] g5 r0 ⟨false⟩).2.1 = [⟨2, 1, 1, 1, 1⟩] :=
  c2_amended_no_match_returns_true [⟨2, 1, 1, 1, 1⟩] g5 r0 (by decide)

/-! ### Claim C3 -/

/-- Claim C3, counterexample: the Postgres operations carry no per-call
timeout at all — every call runs on `context.Background()` — refuting the
claim that every backend operation on either backend executes under a
per-call timeout. -/
theorem c3_counterexample :
    (Pg.opTimeoutSec OpKind.insert).isSome = false := by
  decide

/-- Claim C3 as amended: every Mongo operation executes under a 10-second
per-call timeout and a timed-out call (an error returned by the driver)
yields a false outcome, leaving the database unchanged on insert; the
Postgres operations execute with no per-call timeout. -/
theorem c3_amended_timeouts :
    (∀ k, Mg.opTimeoutSec k = some 10)
  ∧ (∀ k, Pg.opTimeoutSec k = none)
  ∧ (∀ db data g rnd, (Mg.insertRecord db data g rnd ⟨true⟩).1 = OpOutcome.ok false)
  ∧ (∀ db g rnd, (Mg.updateRecord db g rnd ⟨true⟩).1 = OpOutcome.ok false)
  ∧ (∀ db g, (Mg.readRecord db g ⟨true⟩).1 = OpOutcome.ok false)
  ∧ (∀ db errs c, Mg.readRange db ⟨true, errs, c⟩ = OpOutcome.ok false)
  ∧ (∀ db, Mg.readMostRecentRecord db ⟨true⟩ = OpOutcome.ok false)
  ∧ (∀ db data g rnd, (Mg.insertRecord db data g rnd ⟨true⟩).2.1 = db) := by
  refine ⟨fun k => rfl, fun k => rfl, ?_, ?_, ?_, ?_, ?_, ?_⟩
  · intro db data g rnd; simp [Mg.insertRecord]
  · intro db g rnd; simp [Mg.updateRecord]
  · intro db g; simp [Mg.readRecord]
  · intro db errs c; simp [Mg.readRange]
  · intro db; simp [Mg.readMostRecentRecord]
  · intro db data g rnd; simp [Mg.insertRecord]

/-! ### Claim C4 -/

/-- Claim C4: on both backends, `InsertRecord` first randomises the
template, then takes its identifier from exactly one `GetNew` call (the
issued-count rises by exactly one per call, whatever the outcome, and the
identifier of the persisted entity is the `GetNew` result, never the
client-supplied template identifier); a successful call persists exactly
one new row/document, namely the randomised template carrying that fresh
identifier, and a failed call persists nothing. -/
theorem c4_insert_assigns_fresh_id (db : List Person) (data : Person)
    (g : Gen) (rnd : Rnd) (penv : Pg.InsertEnv) (menv : Mg.InsertEnv) :
    ((Pg.insertRecord db data g rnd penv).2.2.1.issuedCount = g.issuedCount + 1)
  ∧ ((Pg.insertRecord db data g rnd penv).1 = OpOutcome.ok true →
      (Pg.insertRecord db data g rnd penv).2.1 =
        db ++ [{ (data.randomise rnd).1 with id := (g.getNew).1 }])
  ∧ ((Pg.insertRecord db data g rnd penv).1 ≠ OpOutcome.ok true →
      (Pg.insertRecord db data g rnd penv).2.1 = db)
  ∧ ((Mg.insertRecord db data g rnd menv).2.2.1.issuedCount = g.issuedCount + 1)
  ∧ ((Mg.insertRecord db data g rnd menv).1 = OpOutcome.ok true →
      (Mg.insertRecord db data g rnd menv).2.1 =
        db ++ [{ (data.randomise rnd).1 with id := (g.getNew).1 }])
  ∧ ((Mg.insertRecord db data g rnd menv).1 ≠ OpOutcome.ok true →
      (Mg.insertRecord db data g rnd menv).2.1 = db) := by
  obtain ⟨me, ee⟩ := penv
  obtain ⟨ie⟩ := menv
  cases me <;> cases ee <;> cases ie <;>
    simp [Pg.insertRecord, Mg.insertRecord, Gen.getNew, Person.randomise]

/-- Claim C4 witness: a concrete successful insert on an empty database
persists exactly the randomised template with the fresh identifier 6, and
bumps the issued-count from 0 to 1, on both backends. -/
theorem c4_witness :
    ((Pg.insertRecord [] p0 g5 r0 ⟨false, false⟩).2.2.1.issuedCount = 0 + 1)
  ∧ ((Pg.insertRecord [] p0 g5 r0 ⟨false, false⟩).2.1 =
      [] ++ [{ (p0.randomise r0).1 with id := (g5.getNew).1 }])
  ∧ ((Mg.insertRecord [] p0 g5 r0 ⟨false⟩).2.2.1.issuedCount = 0 + 1)
  ∧ ((Mg.insertRecord [] p0 g5 r0 ⟨false⟩).2.1 =
      [] ++ [{ (p0.randomise r0).1 with id := (g5.getNew).1 }])
  ∧ ((Pg.insertRecord [] p0 g5 r0 ⟨false, true⟩).2.1 = [])
  ∧ ((Mg.insertRecord [] p0 g5 r0 ⟨true⟩).2.1 = []) := by
  have h := c4_insert_assigns_fresh_id [] p0 g5 r0 ⟨false, false⟩ ⟨false⟩
  have hf := c4_insert_assigns_fresh_id [] p0 g5 r0 ⟨false, true⟩ ⟨true⟩
  exact ⟨h.1, h.2.1 rfl, h.2.2.2.1, h.2.2.2.2.1 rfl,
    hf.2.2.1 (by decide), hf.2.2.2.2.2 (by decide)⟩

/-! ### Claim C5 -/

/-- Claim C5, counterexample: with one persisted record carrying
identifier 0, the backend is neither empty nor unreachable, yet the
Postgres `GetMaxID` reports the no-existing-data error — a failure state
beyond the two the claim allows. -/
theorem c5_counterexample :
    Pg.getMaxID [pZero] ⟨false⟩ = Except.error "no existing data?"
  ∧ ([pZero] : List Person).isEmpty = false :=
  ⟨rfl, rfl⟩

/-- Claim C5 as amended: `GetMaxID` either returns the maximum identifier
currently persisted or the no-existing-data error; the error occurs
exactly when the backend is unreachable or empty — and, on the Postgres
backend only, also when the maximum persisted identifier equals 0. -/
theorem c5_amended_getMaxID (db : List Person) (penv : Pg.MaxEnv)
    (menv : Mg.ReadEnv) :
    (Pg.getMaxID db penv = Except.ok (listMaxId db)
      ∨ Pg.getMaxID db penv = Except.error "no existing data?")
  ∧ (Pg.getMaxID db penv = Except.error "no existing data?" ↔
      (penv.queryErr = true ∨ db.isEmpty = true ∨ listMaxId db = 0))
  ∧ (Mg.getMaxID db menv = Except.ok (listMaxId db)
      ∨ Mg.getMaxID db menv = Except.error "no existing data?")
  ∧ (Mg.getMaxID db menv = Except.error "no existing data?" ↔
      (menv.findErr = true ∨ db.isEmpty = true)) := by
  obtain ⟨qe⟩ := penv
  obtain ⟨fe⟩ := menv
  cases qe <;> cases fe <;> cases hdb : db.isEmpty <;>
    by_cases hm : listMaxId db = 0 <;>
      simp [Pg.getMaxID, Mg.getMaxID, hdb, hm]

/-! ### Claim C9 -/

/-- Claim C9: the two GetMaxID implementations diverge when the maximum
persisted identifier is 0: the Postgres one never returns a successful 0
(every result is either an error or a strictly positive maximum) and
errors on a database holding only a record with identifier 0, while the
Mongo one returns 0 without error on that same database. -/
theorem c9_getMaxID_zero_divergence :
    (∀ db env, Pg.getMaxID db env = Except.error "no existing data?"
      ∨ ∃ n, Pg.getMaxID db env = Except.ok n ∧ 0 < n)
  ∧ Pg.getMaxID [pZero] ⟨false⟩ = Except.error "no existing data?"
  ∧ ([pZero] : List Person).isEmpty = false
  ∧ Mg.getMaxID [pZero] ⟨false⟩ = Except.ok 0 := by
  refine ⟨?_, rfl, rfl, rfl⟩
  intro db env
  obtain ⟨qe⟩ := env
  cases qe
  · cases hdb : db.isEmpty
    · by_cases hm : listMaxId db = 0
      · exact Or.inl (by simp [Pg.getMaxID, hdb, hm])
      · exact Or.inr ⟨listMaxId db, by simp [Pg.getMaxID, hdb, hm],
          Nat.pos_of_ne_zero hm⟩
    · exact Or.inl (by simp [Pg.getMaxID, hdb])
  · exact Or.inl (by simp [Pg.getMaxID])

/-! ### Claim C7 -/

/-- Entry 0 of a Bool list with default false is its head. -/
theorem getD_zero (errs : List Bool) : errs.getD 0 false = errs.headD false := by
  cases errs <;> rfl

/-- Entry `i+1` of a Bool list with default false is entry `i` of its tail. -/
theorem getD_succ (errs : List Bool) (i : Nat) :
    errs.getD (i + 1) false = errs.tail.getD i false := by
  cases errs <;> rfl

/-- Iterating a result set succeeds exactly when no processed row fails. -/
theorem processRows_eq_true_iff :
    ∀ (rows : List Person) (errs : List Bool),
      Pg.processRows rows errs = true ↔
        ∀ i < rows.length, errs.getD i false = false := by
  intro rows
  induction rows with
  | nil => intro errs; simp [Pg.processRows]
  | cons r rs ih =>
    intro errs
    cases hb : errs.headD false with
    | true =>
      simp only [Pg.processRows, hb, if_true, List.length_cons]
      constructor
      · intro h; exact absurd h (by simp)
      · intro hall
        have h0 := hall 0 (Nat.succ_pos _)
        rw [getD_zero, hb] at h0
        exact absurd h0 (by simp)
    | false =>
      simp only [Pg.processRows, hb, Bool.false_eq_true, if_false,
        List.length_cons]
      rw [ih errs.tail]
      constructor
      · intro hall i hi
        cases i with
        | zero => rw [getD_zero, hb]
        | succ j =>
          rw [getD_succ]
          exact hall j (Nat.lt_of_succ_lt_succ hi)
      · intro hall i hi
        rw [← getD_succ]
        exact hall (i + 1) (Nat.succ_lt_succ hi)

/-- Claim C7: `ReadRange` on both backends selects exactly the entities
whose age is strictly between 45 and 75; it returns true exactly when the
query succeeded and every row of the result set was scanned and decoded
without error (for Mongo, including the final cursor check); in
particular an empty result set with no errors is a success. -/
theorem c7_readRange_strict_bounds (db : List Person) (penv : Pg.RangeEnv)
    (menv : Mg.RangeEnv) :
    (∀ r, r ∈ Pg.rangeRows db ↔ (r ∈ db ∧ 45 < r.age ∧ r.age < 75))
  ∧ (Pg.readRange db penv = OpOutcome.ok true ↔
      (penv.queryErr = false ∧ ∀ i < (Pg.rangeRows db).length,
        penv.rowErrs.getD i false = false))
  ∧ (Pg.rangeRows db = [] → penv.queryErr = false →
      Pg.readRange db penv = OpOutcome.ok true)
  ∧ (Mg.readRange db menv = OpOutcome.ok true ↔
      (menv.findErr = false ∧ menv.cursorErr = false ∧
        ∀ i < (Pg.rangeRows db).length, menv.rowErrs.getD i false = false))
  ∧ (Pg.rangeRows db = [] → menv.findErr = false → menv.cursorErr = false →
      Mg.readRange db menv = OpOutcome.ok true) := by
  obtain ⟨qe, perrs⟩ := penv
  obtain ⟨fe, merrs, ce⟩ := menv
  refine ⟨?_, ?_, ?_, ?_, ?_⟩
  · intro r; simp [Pg.rangeRows, List.mem_filter, and_assoc]
  · cases qe <;> simp [Pg.readRange, processRows_eq_true_iff]
  · intro h he
    subst he
    simp [Pg.readRange, h, Pg.processRows]
  · have hmg : Mg.readRange db ⟨fe, merrs, ce⟩ =
        OpOutcome.ok (!fe && Pg.processRows (Pg.rangeRows db) merrs && !ce) := by
      cases fe <;> cases ce <;>
        cases hp : Pg.processRows (Pg.rangeRows db) merrs <;>
          simp [Mg.readRange, hp]
    rw [hmg]
    simp only [OpOutcome.ok.injEq, Bool.and_eq_true, Bool.not_eq_true']
    rw [processRows_eq_true_iff]
    tauto
  · intro h hf hc
    subst hf; subst hc
    simp [Mg.readRange, h, Pg.processRows]

/-- Claim C7 witness: a one-row in-range result set with no errors and an
empty result set both yield success. -/
theorem c7_witness :
    Pg.readRange [⟨1, 50, 0, 0, 0⟩] ⟨false, []⟩ = OpOutcome.ok true
  ∧ Pg.readRange [] ⟨false, []⟩ = OpOutcome.ok true
  ∧ Mg.readRange [] ⟨false, [], false⟩ = OpOutcome.ok true :=
  ⟨(c7_readRange_strict_bounds [⟨1, 50, 0, 0, 0⟩] ⟨false, []⟩
      ⟨false, [], false⟩).2.1.mpr ⟨rfl, by decide⟩,
   (c7_readRange_strict_bounds [] ⟨false, []⟩
      ⟨false, [], false⟩).2.2.1 rfl rfl,
   (c7_readRange_strict_bounds [] ⟨false, []⟩
      ⟨false, [], false⟩).2.2.2.2 rfl rfl rfl⟩

/-! ### Claim C8 -/

/-- In the pairing of a list with its image under a map, the second
component is the image of the first. -/
theorem zip_map_snd {f : Person → Person} :
    ∀ {l : List Person} {pr : Person × Person}, pr ∈ l.zip (l.map f) →
      pr.2 = f pr.1 := by
  intro l
  induction l with
  | nil => intro pr h; cases h
  | cons a rest ih =>
    intro pr h
    rcases List.mem_cons.mp h with h1 | h2
    · subst h1; rfl
    · exact ih h2

/-- When the persisted identifiers are pairwise distinct, updating the
first match is the same as updating every match. -/
theorem updateFirst_eq_map_of_nodup :
    ∀ {l : List Person} {t v : Nat}, (l.map Person.id).Nodup →
      Mg.updateFirst l t v =
        l.map (fun r => if r.id = t then { r with balance := v } else r) := by
  intro l
  induction l with
  | nil => intro t v _; rfl
  | cons a rest ih =>
    intro t v h
    rw [List.map_cons, List.nodup_cons] at h
    obtain ⟨ha, hrest⟩ := h
    by_cases hid : a.id = t
    · simp only [Mg.updateFirst, List.map_cons, if_pos hid]
      rw [map_eq_self_of_fix]
      intro x hx
      rw [if_neg]
      intro hxt
      exact ha (by rw [hid, ← hxt]; exact List.mem_map_of_mem Person.id hx)
    · simp only [Mg.updateFirst, List.map_cons, if_neg hid]
      rw [ih hrest]

/-- Pointwise shape of a balance-only map update: every field except the
balance is preserved, non-matching entries are fully preserved, and the
matching entries carry the new balance. -/
theorem map_update_pred (db : List Person) (t v : Nat) :
    ∀ pr ∈ db.zip (db.map
        (fun r => if r.id = t then { r with balance := v } else r)),
      pr.2.id = pr.1.id ∧ pr.2.age = pr.1.age ∧ pr.2.name = pr.1.name
    ∧ pr.2.pad = pr.1.pad ∧ (pr.1.id ≠ t → pr.2 = pr.1)
    ∧ (pr.1.id = t → pr.2.balance = v) := by
  intro pr hpr
  have h2 := zip_map_snd hpr
  by_cases hid : pr.1.id = t
  · simp [h2, hid]
  · simp [h2, hid]

/-- Claim C8: on both backends, a successfully executed `UpdateRecord`
writes only the balance field, setting it — on the entity matching the
sampled identifier — to the value drawn from the supplied randomness
source: the database keeps its length, every entity keeps its identifier,
age, name and padding, entities not matching the sampled identifier are
unchanged entirely, and the matching entity's balance becomes the drawn
value.  (The identifiers are assumed pairwise distinct, the generator
invariant; `UpdateOne` touches only the first match, the SQL UPDATE every
match.) -/
theorem c8_update_frame (db : List Person) (g : Gen) (rnd : Rnd)
    (hids : (db.map Person.id).Nodup) :
    ((Pg.updateRecord db g rnd ⟨false⟩).2.1).length = db.length
  ∧ (∀ pr ∈ db.zip (Pg.updateRecord db g rnd ⟨false⟩).2.1,
      pr.2.id = pr.1.id ∧ pr.2.age = pr.1.age ∧ pr.2.name = pr.1.name
    ∧ pr.2.pad = pr.1.pad ∧ (pr.1.id ≠ (g.getExisting).1 → pr.2 = pr.1)
    ∧ (pr.1.id = (g.getExisting).1 → pr.2.balance = (rnd.next).1))
  ∧ ((Mg.updateRecord db g rnd ⟨false⟩).2.1).length = db.length
  ∧ (∀ pr ∈ db.zip (Mg.updateRecord db g rnd ⟨false⟩).2.1,
      pr.2.id = pr.1.id ∧ pr.2.age = pr.1.age ∧ pr.2.name = pr.1.name
    ∧ pr.2.pad = pr.1.pad ∧ (pr.1.id ≠ (g.getExisting).1 → pr.2 = pr.1)
    ∧ (pr.1.id = (g.getExisting).1 → pr.2.balance = (rnd.next).1)) := by
  have hpg : (Pg.updateRecord db g rnd ⟨false⟩).2.1 =
      db.map (fun r => if r.id = (g.getExisting).1 then
        { r with balance := (rnd.next).1 } else r) := by
    simp [Pg.updateRecord]
  have hmg : (Mg.updateRecord db g rnd ⟨false⟩).2.1 =
      db.map (fun r => if r.id = (g.getExisting).1 then
        { r with balance := (rnd.next).1 } else r) := by
    simp only [Mg.updateRecord]
    exact updateFirst_eq_map_of_nodup hids
  refine ⟨by rw [hpg, List.length_map], ?_, by rw [hmg, List.length_map], ?_⟩
  · rw [hpg]; exact map_update_pred db _ _
  · rw [hmg]; exact map_update_pred db _ _

/-- Claim C8 witness: a concrete two-record update preserves the database
length on both backends, under pairwise-distinct identifiers. -/
theorem c8_witness :
    (([⟨1, 10, 2, 3, 4⟩, ⟨2, 20, 5, 6, 7⟩] : List Person).map Person.id).Nodup
  ∧ ((Pg.updateRecord [⟨1, 10, 2, 3, 4⟩, ⟨2, 20, 5, 6, 7⟩] g5 ⟨[9]⟩
      ⟨false⟩).2.1).length = 2
  ∧ ((Mg.updateRecord [⟨1, 10, 2, 3, 4⟩, ⟨2, 20, 5, 6, 7⟩] g5 ⟨[9]⟩
      ⟨false⟩).2.1).length = 2 := by
  have h := c8_update_frame [⟨1, 10, 2, 3, 4⟩, ⟨2, 20, 5, 6, 7⟩] g5 ⟨[9]⟩
    (by decide)
  exact ⟨by decide, h.1.trans rfl, h.2.2.1.trans rfl⟩

/-! ### Claims C6 and C10: query-string lemmas -/

/-- Finding by one key in pairs filtered on a different key is finding in
the unfiltered pairs. -/
theorem find?_filter_of_ne {k k' : String} (h : k' ≠ k) :
    ∀ ps : List (String × String),
      ((ps.filter fun kv => kv.1 ≠ k).find? fun kv => kv.1 = k') =
        (ps.find? fun kv => kv.1 = k') := by
  intro ps
  induction ps with
  | nil => rfl
  | cons kv rest ih =>
    rw [List.filter_cons]
    by_cases hk : kv.1 = k
    · have hne : ¬(kv.1 = k') := fun hc => h (hc ▸ hk)
      rw [if_neg (by simp [hk]), List.find?_cons_of_neg _ (by simp [hne]), ih]
    · rw [if_pos (by simp [hk])]
      by_cases hkk : kv.1 = k'
      · rw [List.find?_cons_of_pos _ (by simp [hkk]),
          List.find?_cons_of_pos _ (by simp [hkk])]
      · rw [List.find?_cons_of_neg _ (by simp [hkk]),
          List.find?_cons_of_neg _ (by simp [hkk]), ih]

/-- Deleting one key leaves lookups of a different key unchanged. -/
theorem get_del_ne (q : Mg.Query) (k k' : String) (h : k' ≠ k) :
    (q.del k).get k' = q.get k' := by
  obtain ⟨ps⟩ := q
  simp only [Mg.Query.get, Mg.Query.del]
  rw [find?_filter_of_ne h ps]

/-- Deleting a key removes every pair carrying it. -/
theorem has_del_self (q : Mg.Query) (k : String) :
    (q.del k).has k = false := by
  obtain ⟨ps⟩ := q
  simp only [Mg.Query.has, Mg.Query.del]
  induction ps with
  | nil => rfl
  | cons kv rest ih =>
    rw [List.filter_cons]
    by_cases hk : kv.1 = k
    · rw [if_neg (by simp [hk])]; exact ih
    · rw [if_pos (by simp [hk]), List.any_cons]
      simp only [ih, Bool.or_false]
      simp [hk]

/-- Deleting one key leaves presence of a different key unchanged. -/
theorem has_del_ne (q : Mg.Query) (k k' : String) (h : k' ≠ k) :
    (q.del k).has k' = q.has k' := by
  obtain ⟨ps⟩ := q
  simp only [Mg.Query.has, Mg.Query.del]
  induction ps with
  | nil => rfl
  | cons kv rest ih =>
    rw [List.filter_cons]
    by_cases hk : kv.1 = k
    · rw [if_neg (by simp [hk]), List.any_cons, ih]
      have : ¬(kv.1 = k') := fun hc => h (hc ▸ hk)
      simp [this]
    · rw [if_pos (by simp [hk]), List.any_cons, List.any_cons, ih]

/-- A key that is absent looks up to the empty string. -/
theorem get_eq_empty_of_not_has (q : Mg.Query) (k : String)
    (h : q.has k = false) : q.get k = "" := by
  obtain ⟨ps⟩ := q
  simp only [Mg.Query.get, Mg.Query.has] at *
  induction ps with
  | nil => rfl
  | cons kv rest ih =>
    rw [List.any_cons] at h
    have hk : ¬(kv.1 = k) := by
      intro hc
      rw [hc] at h; simp at h
    rw [List.find?_cons_of_neg _ (by simp [hk])]
    exact ih (by simpa using (Bool.or_eq_false_iff.mp h).2)

/-- Stripping the four recognized parameters removes all of them. -/
theorem stripParams_has (q : Mg.Query) :
    (Mg.stripParams q).has "readConcern" = false
  ∧ (Mg.stripParams q).has "writeConcern" = false
  ∧ (Mg.stripParams q).has "journal" = false
  ∧ (Mg.stripParams q).has "fsync" = false := by
  refine ⟨?_, ?_, ?_, ?_⟩ <;>
    simp only [Mg.stripParams]
  · rw [has_del_ne _ _ _ (by decide), has_del_ne _ _ _ (by decide),
      has_del_ne _ _ _ (by decide), has_del_self]
  · rw [has_del_ne _ _ _ (by decide), has_del_ne _ _ _ (by decide),
      has_del_self]
  · rw [has_del_ne _ _ _ (by decide), has_del_self]
  · rw [has_del_self]

/-- The readConcern switch accepts exactly the valid values and denotes
`rcVal`. -/
theorem rcParse_spec (s : String) :
    Mg.rcParse s = if Mg.validRCStr s = false then
      Except.error "unknown readConcern value"
    else Except.ok (Mg.rcVal s) := by
  unfold Mg.rcParse
  split <;> simp_all [Mg.validRCStr, Mg.rcVal]

/-- The writeConcern switch accepts exactly the valid values and denotes
the corresponding base write concern. -/
theorem wcParse_spec (s : String) :
    Mg.wcParse s = if Mg.validWCStr s = false then
      Except.error "invalid writeConcern value"
    else Except.ok (if s = "" || s = "majority" then ⟨true, 0, false⟩
      else ⟨false, (Mg.atoi s).getD 0, false⟩) := by
  unfold Mg.wcParse
  split
  · simp [Mg.validWCStr]
  · simp [Mg.validWCStr]
  · rename_i h1 h2
    cases ha : Mg.atoi s <;> simp_all [Mg.validWCStr]

/-- The journal switch accepts exactly the valid values and flips the
journal flag on true/1. -/
theorem jParse_spec (wc : Mg.WC) (s : String) :
    Mg.jParse wc s = if Mg.validJFStr s = false then
      Except.error "unknown journal value"
    else Except.ok (if s = "true" || s = "1" then
      { wc with journal := true } else wc) := by
  unfold Mg.jParse
  split <;> simp_all [Mg.validJFStr]

/-- The fsync switch accepts exactly the valid values. -/
theorem fsParse_spec (s : String) :
    Mg.fsParse s = if Mg.validJFStr s = false then
      Except.error "unknown fsync value"
    else Except.ok () := by
  unfold Mg.fsParse
  split <;> simp_all [Mg.validJFStr]

/-- Full characterisation of the Mongo `NewProvider`: the first failing
validation (database name, readConcern, writeConcern, journal, fsync),
connect or ping step determines the error; when everything passes, the
provider carries the connected client, the resolved database and
collection names, the selected concerns, and the stripped query. -/
theorem newProvider_spec (path : String) (q : Mg.Query) (t : String)
    (env : Mg.ConnEnv) :
    Mg.newProvider path q t env =
      (if Mg.trimSlash path = "" then
        Except.error "database name cannot be empty"
      else if Mg.validRCStr (Mg.toLowerStr (q.get "readConcern")) = false then
        Except.error "unknown readConcern value"
      else if Mg.validWCStr (Mg.toLowerStr (q.get "writeConcern")) = false then
        Except.error "invalid writeConcern value"
      else if Mg.validJFStr (Mg.toLowerStr (q.get "journal")) = false then
        Except.error "unknown journal value"
      else if Mg.validJFStr (Mg.toLowerStr (q.get "fsync")) = false then
        Except.error "unknown fsync value"
      else if env.connectErr then Except.error "connect"
      else if env.pingErr then Except.error "ping"
      else Except.ok
        { connected := true, dbName := Mg.trimSlash path, collection := t,
          rc := Mg.rcVal (Mg.toLowerStr (q.get "readConcern")),
          wc := Mg.wcVal (Mg.toLowerStr (q.get "writeConcern"))
                  (Mg.toLowerStr (q.get "journal")),
          cleanQuery := Mg.stripParams q }) := by
  have hwc : (q.del "readConcern").get "writeConcern" =
      q.get "writeConcern" := get_del_ne _ _ _ (by decide)
  have hj : ((q.del "readConcern").del "writeConcern").get "journal" =
      q.get "journal" := by
    rw [get_del_ne _ _ _ (by decide), get_del_ne _ _ _ (by decide)]
  have hf : (((q.del "readConcern").del "writeConcern").del
      "journal").get "fsync" = q.get "fsync" := by
    rw [get_del_ne _ _ _ (by decide), get_del_ne _ _ _ (by decide),
      get_del_ne _ _ _ (by decide)]
  simp only [Mg.newProvider, hwc, hj, hf, rcParse_spec, wcParse_spec,
    jParse_spec, fsParse_spec, Mg.stripParams, Mg.wcVal]
  by_cases h1 : Mg.trimSlash path = ""
  · simp [h1]
  by_cases h2 : Mg.validRCStr (Mg.toLowerStr (q.get "readConcern")) = false
  · simp [h1, h2]
  by_cases h3 : Mg.validWCStr (Mg.toLowerStr (q.get "writeConcern")) = false
  · simp [h1, h2, h3]
  by_cases h4 : Mg.validJFStr (Mg.toLowerStr (q.get "journal")) = false
  · simp [h1, h2, h3, h4]
  by_cases h5 : Mg.validJFStr (Mg.toLowerStr (q.get "fsync")) = false
  · simp [h1, h2, h3, h4, h5]
  by_cases h6 : env.connectErr
  · simp [h1, h2, h3, h4, h5, h6]
  by_cases h7 : env.pingErr
  · simp [h1, h2, h3, h4, h5, h6, h7]
  simp [h1, h2, h3, h4, h5, h6, h7]

/-! ### Claim C6 -/

/-- Claim C6: both provider factories either return a fully initialised
provider — connected (pinged) handle plus the target table/collection
names set — or an error, never a partial provider; the Postgres factory
succeeds exactly when config parsing, connecting and pinging all succeed,
and every connect/ping failure of the Mongo factory yields an error. -/
theorem c6_provider_factory (t : String) (penv : Pg.ConnEnv) (path : String)
    (q : Mg.Query) (mt : String) (menv : Mg.ConnEnv) :
    (Pg.newProvider t penv = Except.ok ⟨true, t⟩
      ∨ ∃ e, Pg.newProvider t penv = Except.error e)
  ∧ (Pg.newProvider t penv = Except.ok ⟨true, t⟩ ↔
      (penv.parseErr = false ∧ penv.connectErr = false ∧ penv.pingErr = false))
  ∧ ((∃ pr : Mg.Provider, Mg.newProvider path q mt menv = Except.ok pr
        ∧ pr.connected = true ∧ pr.dbName = Mg.trimSlash path
        ∧ pr.collection = mt)
      ∨ ∃ e, Mg.newProvider path q mt menv = Except.error e)
  ∧ (menv.connectErr = true ∨ menv.pingErr = true →
      ∃ e, Mg.newProvider path q mt menv = Except.error e) := by
  obtain ⟨pe, ce, pge⟩ := penv
  refine ⟨?_, ?_, ?_, ?_⟩
  · cases pe
    · cases ce
      · cases pge
        · exact Or.inl (by simp [Pg.newProvider])
        · exact Or.inr ⟨"ping", by simp [Pg.newProvider]⟩
      · exact Or.inr ⟨"connect", by simp [Pg.newProvider]⟩
    · exact Or.inr ⟨"parse config", by simp [Pg.newProvider]⟩
  · cases pe <;> cases ce <;> cases pge <;> simp [Pg.newProvider]
  · rw [newProvider_spec]
    split_ifs <;> first
      | exact Or.inr ⟨_, rfl⟩
      | exact Or.inl ⟨_, rfl, rfl, rfl, rfl⟩
  · intro hcp
    rw [newProvider_spec]
    split_ifs <;> first
      | exact ⟨_, rfl⟩
      | simp_all

/-- Claim C6 witness: with nothing failing the Postgres factory returns
the ready provider, and a Mongo connect failure yields an error. -/
theorem c6_witness :
    Pg.newProvider "bench" ⟨false, false, false⟩ =
      Except.ok ⟨true, "bench"⟩
  ∧ (Mg.newProvider "/db" ⟨[]⟩ "c" ⟨true, false⟩).isOk = false := by
  have h := c6_provider_factory "bench" ⟨false, false, false⟩ "/db" ⟨[]⟩
    "c" ⟨true, false⟩
  refine ⟨h.2.1.mpr ⟨rfl, rfl, rfl⟩, ?_⟩
  obtain ⟨e, he⟩ := h.2.2.2 (Or.inl rfl)
  rw [he]
  rfl

/-! ### Claim C10 -/

/-- Claim C10: the Mongo factory rejects its endpoint exactly when the URL
path carries no database name, the readConcern parameter (lowercased) is
not empty/majority/local/linearizable, the writeConcern parameter is
neither empty/majority nor an integer, the journal or fsync parameter is
not empty/true/false/0/1, or connecting/pinging fails; absent readConcern
and writeConcern parameters default to the majority read concern and the
majority write concern; and the four recognized parameters are all
stripped from the query passed on to the client. -/
theorem c10_mongo_endpoint_validation (path : String) (q : Mg.Query)
    (t : String) (env : Mg.ConnEnv) :
    ((∃ e, Mg.newProvider path q t env = Except.error e) ↔
      (Mg.trimSlash path = ""
        ∨ Mg.validRCStr (Mg.toLowerStr (q.get "readConcern")) = false
        ∨ Mg.validWCStr (Mg.toLowerStr (q.get "writeConcern")) = false
        ∨ Mg.validJFStr (Mg.toLowerStr (q.get "journal")) = false
        ∨ Mg.validJFStr (Mg.toLowerStr (q.get "fsync")) = false
        ∨ env.connectErr = true ∨ env.pingErr = true))
  ∧ (q.has "readConcern" = false → q.has "writeConcern" = false →
      ∀ pr, Mg.newProvider path q t env = Except.ok pr →
        pr.rc = Mg.RC.majority ∧ pr.wc.wmajority = true ∧ pr.wc.w = 0)
  ∧ (∀ pr, Mg.newProvider path q t env = Except.ok pr →
      pr.cleanQuery.has "readConcern" = false
    ∧ pr.cleanQuery.has "writeConcern" = false
    ∧ pr.cleanQuery.has "journal" = false
    ∧ pr.cleanQuery.has "fsync" = false) := by
  refine ⟨?_, ?_, ?_⟩
  · rw [newProvider_spec]
    split_ifs <;> simp_all
  · intro hrc hwcq pr hpr
    have hg1 : q.get "readConcern" = "" := get_eq_empty_of_not_has _ _ hrc
    have hg2 : q.get "writeConcern" = "" := get_eq_empty_of_not_has _ _ hwcq
    rw [newProvider_spec, hg1, hg2] at hpr
    simp only [show (Mg.toLowerStr "") = "" from rfl] at hpr
    split_ifs at hpr
    injection hpr with h
    subst h
    refine ⟨rfl, ?_, ?_⟩
    · simp only [Mg.wcVal]
      split <;> rfl
    · simp only [Mg.wcVal]
      split <;> rfl
  · intro pr hpr
    rw [newProvider_spec] at hpr
    split_ifs at hpr
    injection hpr with h
    subst h
    exact stripParams_has q

/-- Claim C10 witness: the factory applied to a concrete endpoint with an
empty query succeeds with majority read and write concerns and a clean
query. -/
theorem c10_witness :
    Mg.Query.has ⟨[]⟩ "readConcern" = false
  ∧ Mg.Query.has ⟨[]⟩ "writeConcern" = false
  ∧ ((⟨true, "db", "c", Mg.RC.majority, ⟨true, 0, false⟩,
        ⟨[]⟩⟩ : Mg.Provider).rc = Mg.RC.majority
      ∧ (⟨true, "db", "c", Mg.RC.majority, ⟨true, 0, false⟩,
          ⟨[]⟩⟩ : Mg.Provider).wc.wmajority = true
      ∧ (⟨true, "db", "c", Mg.RC.majority, ⟨true, 0, false⟩,
          ⟨[]⟩⟩ : Mg.Provider).wc.w = 0)
  ∧ ((⟨true, "db", "c", Mg.RC.majority, ⟨true, 0, false⟩,
        ⟨[]⟩⟩ : Mg.Provider).cleanQuery.has "readConcern" = false
      ∧ (⟨true, "db", "c", Mg.RC.majority, ⟨true, 0, false⟩,
          ⟨[]⟩⟩ : Mg.Provider).cleanQuery.has "writeConcern" = false
      ∧ (⟨true, "db", "c", Mg.RC.majority, ⟨true, 0, false⟩,
          ⟨[]⟩⟩ : Mg.Provider).cleanQuery.has "journal" = false
      ∧ (⟨true, "db", "c", Mg.RC.majority, ⟨true, 0, false⟩,
          ⟨[]⟩⟩ : Mg.Provider).cleanQuery.has "fsync" = false) := by
  have h := c10_mongo_endpoint_validation "/db" ⟨[]⟩ "c" ⟨false, false⟩
  exact ⟨rfl, rfl, h.2.1 rfl rfl _ rfl, h.2.2 _ rfl⟩

end MPB
